import Mathlib

/-!
Shallow embedding of the `StackInspector` class from the debuggingbook
repository (notebook `StackInspector.ipynb`).

Modelling choices:

* A Python value is abstracted by the attributes the inspected code reads:
  whether it is truthy, whether it is callable, and whether it is an
  instance of the inspecting `StackInspector` class (or a subclass) --
  the result of `isinstance(v, self.__class__)` -- plus a numeric
  identity so that distinct objects stay distinguishable (referential
  equality of callables becomes equality of `Value`).
* A frame (`FrameType`) carries `f_locals`, `f_globals` (association
  lists with unique keys, modelling dicts), `f_code.co_name`,
  `f_lineno`, and an oracle `mkFunctionResult` recording what the
  opaque runtime call `FunctionType(frame.f_code, globals=frame.f_globals,
  name=name)` would do for this frame: succeed with some value, raise
  `TypeError`, or raise some other exception.
* The `f_back` chain of frames is represented as a `List FrameData`,
  innermost frame first; the empty list stands for the `None` past the
  outermost frame.
* The mutable class-level cache `_generated_function_cache` is passed
  as explicit state; `warnings.warn` is modelled by a list of emitted
  warning strings in the result.
* A Python `AttributeError` escaping (dereferencing the `None` frame)
  is modelled by an `Option` result being `none`.
-/

namespace StackInspector

/-- Abstraction of a Python object, keeping only the attributes that the
inspected code observes. -/
structure Value where
  id : Nat
  truthy : Bool
  isCallable : Bool
  isInspectorInstance : Bool
deriving DecidableEq, Repr

/-- A Python dict from names to values, as an association list (keys unique). -/
abbrev Dict := List (String × Value)

/-- Python `d.get(k)` / `d[k]` (first matching key). -/
def lookupDict (d : Dict) (k : String) : Option Value :=
  match d.find? (fun p => p.1 == k) with
  | some p => some p.2
  | none => none

/-- Outcome of the opaque runtime call
`FunctionType(frame.f_code, globals=frame.f_globals, name=name)`:
success, a `TypeError` (unsuitable code), or any other exception
(carrying the exception type name and text used in the warning). -/
inductive MkResult where
  | ok (f : Value)
  | typeError
  | otherError (excTypeName excText : String)
deriving DecidableEq, Repr

/-- One stack frame: the fields of a Python `FrameType` that
`StackInspector` reads, plus the `MkResult` oracle for this frame, namely its
code object and globals. -/
structure FrameData where
  f_locals : Dict
  f_globals : Dict
  co_name : String
  f_lineno : Nat
  mkFunctionResult : MkResult
deriving DecidableEq, Repr

/-- `StackInspector.our_frame`: the test whether the local binding
of the name self (via dict get, which yields None when the key is
missing) is an instance of the inspecting class; `isinstance(None, C)`
is false. -/
def our_frame (frame : FrameData) : Bool :=
  match lookupDict frame.f_locals "self" with
  | some v => v.isInspectorInstance
  | none => false

/-- `StackInspector.caller_frame`: walk the `f_back` chain while
`our_frame` holds.  The chain is the list of frames starting at the
current frame; `none` models the `AttributeError` raised when the walk
steps past the outermost frame onto `None` and the loop condition
evaluates `None.f_locals`. -/
def caller_frame : List FrameData → Option FrameData
  | [] => none
  | frame :: rest => if our_frame frame then caller_frame rest else some frame

/-- The suffix of the chain at which the walk of `caller_frame` stops: the
first non-owned frame together with the frames outward of it (empty if
every frame is owned). -/
def outerFrames : List FrameData → List FrameData
  | [] => []
  | frame :: rest => if our_frame frame then outerFrames rest else frame :: rest

/-- `StackInspector.search_frame` on an explicit chain.  At each frame:
`item = None`; if `name in f_globals`, `item` becomes the global value;
if `name in f_locals`, `item` becomes the local value (overwriting);
if `item and callable(item)`, return `(frame, item)`; otherwise move to
`f_back`.  An exhausted chain yields `(None, None)`, modelled `none`. -/
def search_frame (name : String) : List FrameData → Option (FrameData × Value)
  | [] => none
  | frame :: rest =>
    let item0 : Option Value := none
    let item1 : Option Value :=
      if (lookupDict frame.f_globals name).isSome then lookupDict frame.f_globals name
      else item0
    let item2 : Option Value :=
      if (lookupDict frame.f_locals name).isSome then lookupDict frame.f_locals name
      else item1
    match item2 with
    | some item =>
      if item.truthy && item.isCallable then some (frame, item)
      else search_frame name rest
    | none => search_frame name rest

/-- `StackInspector.search_func`: the callable half of `search_frame`. -/
def search_func (name : String) (chain : List FrameData) : Option Value :=
  match search_frame name chain with
  | some (_, func) => some func
  | none => none

/-- `StackInspector.unknown`: the fixed no-op placeholder callable. -/
def unknown : Value :=
  { id := 0, truthy := true, isCallable := true, isInspectorInstance := false }

/-- The class-level dict `_generated_function_cache`, keyed by
`(name, lineno)`. -/
abbrev Cache := List ((String × Nat) × Value)

/-- Python `cache_key in cache` / `cache[cache_key]`. -/
def lookupCache (c : Cache) (k : String × Nat) : Option Value :=
  match c.find? (fun p => p.1 == k) with
  | some p => some p.2
  | none => none

/-- Python `cache[cache_key] = v` (later bindings shadow earlier ones). -/
def insertCache (c : Cache) (k : String × Nat) (v : Value) : Cache :=
  (k, v) :: c

/-- The cache key `(frame.f_code.co_name, frame.f_lineno)`. -/
def cache_key (frame : FrameData) : String × Nat :=
  (frame.co_name, frame.f_lineno)

/-- The warning text emitted by the generic exception handler of
`create_function`. -/
def warnCreate (name excTypeName excText : String) : String :=
  "Couldn\x27t create function for " ++ name ++ "  (" ++ excTypeName ++ ": " ++ excText ++ ")"

/-- Result of `create_function`: the returned callable, the cache after
the call, and the warnings emitted during the call. -/
structure CreateResult where
  func : Value
  cache : Cache
  warns : List String
deriving DecidableEq, Repr

/-- `StackInspector.create_function`: look up `(name, f_lineno)` in the
cache; on a miss run the `FunctionType` construction, mapping
`TypeError` to the `unknown` placeholder silently and any other
exception to the placeholder plus a warning; store the result in the
cache and return it. -/
def create_function (cache : Cache) (frame : FrameData) : CreateResult :=
  let name := frame.co_name
  let key := (name, frame.f_lineno)
  match lookupCache cache key with
  | some f => ⟨f, cache, []⟩
  | none =>
    match frame.mkFunctionResult with
    | .ok f => ⟨f, insertCache cache key f, []⟩
    | .typeError => ⟨unknown, insertCache cache key unknown, []⟩
    | .otherError tn tx =>
      ⟨unknown, insertCache cache key unknown, [warnCreate name tn tx]⟩

/-- The warning text of `caller_function` when the name search fails. -/
def warnNotFound (name : String) : String :=
  "Couldn\x27t find " ++ name ++ " in caller"

/-- Python name.startswith of the one-character prefix <: true iff the
string is nonempty and its first character is <. -/
def startswith_lt (name : String) : Bool :=
  name.data.head? == some '<'

/-- Python truthiness of an `Optional[Callable]`: `None` is falsy,
otherwise the truthiness of the value itself. -/
def pyTruthyOpt : Option Value → Bool
  | none => false
  | some v => v.truthy

/-- `StackInspector.caller_function`: take `frame = caller_frame()` and
`name = frame.f_code.co_name`; run `search_func(name)` -- whose default
start frame is again `caller_frame()`, i.e. the search begins at the
suffix `outerFrames chain` headed by `frame` itself; if the result is
truthy return it, else warn unless `name` starts with the character < and fall
back to `create_function(frame)`.  `none` models the `AttributeError`
propagating out of `caller_frame` on an all-owned chain. -/
def caller_function (cache : Cache) (chain : List FrameData) :
    Option CreateResult :=
  match caller_frame chain with
  | none => none
  | some frame =>
    let name := frame.co_name
    let func := search_func name (outerFrames chain)
    if pyTruthyOpt func then
      some ⟨func.getD unknown, cache, []⟩
    else
      let ws := if startswith_lt name then [] else [warnNotFound name]
      let r := create_function cache frame
      some ⟨r.func, r.cache, ws ++ r.warns⟩

/-- The `for frame, lineno in traceback.walk_tb(exc_traceback)` loop of
`is_internal_error`: return true at the first frame with `our_frame`. -/
def walk_tb_any_ours : List (FrameData × Nat) → Bool
  | [] => false
  | (frame, _) :: rest => if our_frame frame then true else walk_tb_any_ours rest

/-- `StackInspector.is_internal_error`: `if not exc_tp: return False`
(only `None` is falsy for a class), then scan the frames of the traceback
for one satisfying `our_frame`.  `exc_value` is ignored by the code. -/
def is_internal_error (exc_tp : Option Nat) (exc_value : Nat)
    (exc_traceback : List (FrameData × Nat)) : Bool :=
  match exc_tp with
  | none => false
  | some _ => walk_tb_any_ours exc_traceback

/-- Spec-side (for comparison with `search_frame`): the binding the
search effectively selects at one frame -- locals take precedence over
globals. -/
def selectedBinding (frame : FrameData) (name : String) : Option Value :=
  match lookupDict frame.f_locals name with
  | some v => some v
  | none => lookupDict frame.f_globals name

/-- Spec-side: a frame is a match for `name` when its selected binding
is both truthy and callable. -/
def frameMatches (frame : FrameData) (name : String) : Bool :=
  match selectedBinding frame name with
  | some v => v.truthy && v.isCallable
  | none => false

/-- Spec-side (following the words of the claim): the frame binds `name` to a callable,
in its locals or in its globals. -/
def bindsNameToCallable (frame : FrameData) (name : String) : Bool :=
  (match lookupDict frame.f_locals name with
   | some v => v.isCallable
   | none => false)
  ||
  (match lookupDict frame.f_globals name with
   | some v => v.isCallable
   | none => false)

/-! Concrete values and frames used by witnesses and counterexamples. -/

/-- A concrete instance of the inspecting class (or a subclass). -/
def inspectorSelf : Value :=
  { id := 1, truthy := true, isCallable := false, isInspectorInstance := true }

/-- A frame owned by the inspecting class: a method call with the name
self bound to `inspectorSelf`. -/
def ownedFrame : FrameData :=
  { f_locals := [("self", inspectorSelf)], f_globals := [],
    co_name := "callee", f_lineno := 10, mkFunctionResult := .typeError }

/-- A second owned frame. -/
def ownedFrame2 : FrameData :=
  { f_locals := [("self", inspectorSelf)], f_globals := [],
    co_name := "caller", f_lineno := 20, mkFunctionResult := .typeError }

/-- A frame that is not owned and binds nothing. -/
def plainFrame : FrameData :=
  { f_locals := [], f_globals := [], co_name := "test", f_lineno := 9,
    mkFunctionResult := .typeError }

/-- A truthy callable value. -/
def goodFn : Value :=
  { id := 5, truthy := true, isCallable := true, isInspectorInstance := false }

/-- A callable value whose truthiness test is false (a callable object
whose bool conversion yields False). -/
def falsyCallable : Value :=
  { id := 7, truthy := false, isCallable := true, isInspectorInstance := false }

/-- A frame whose locals bind the name f to a falsy callable while its
globals bind the same name to a truthy callable. -/
def hiddenFrame : FrameData :=
  { f_locals := [("f", falsyCallable)], f_globals := [("f", goodFn)],
    co_name := "g", f_lineno := 2, mkFunctionResult := .typeError }

/-- The value the construction oracle of `extFrame` would produce. -/
def generatedTestFn : Value :=
  { id := 6, truthy := true, isCallable := true, isInspectorInstance := false }

/-- An external (non-owned) frame executing code named test, whose own
locals bind the name test to `goodFn`. -/
def extFrame : FrameData :=
  { f_locals := [("test", goodFn)], f_globals := [], co_name := "test",
    f_lineno := 3, mkFunctionResult := .ok generatedTestFn }

/-- A frame sharing the cache key of `extFrame` but with a different
code object and globals (its construction oracle raises). -/
def extFrameAlt : FrameData :=
  { f_locals := [], f_globals := [("x", goodFn)], co_name := "test",
    f_lineno := 3, mkFunctionResult := .otherError "ValueError" "boom" }

/-! Helper lemmas. -/

/-- One step of `search_frame`, phrased through `selectedBinding`: the
item the loop body computes (globals first, locals overwrite) is the
locals-over-globals selected binding. -/
theorem search_frame_cons (name : String) (frame : FrameData)
    (rest : List FrameData) :
    search_frame name (frame :: rest) =
      match selectedBinding frame name with
      | some item =>
        if item.truthy && item.isCallable then some (frame, item)
        else search_frame name rest
      | none => search_frame name rest := by
  simp only [search_frame, selectedBinding]
  cases hl : lookupDict frame.f_locals name <;>
    cases hg : lookupDict frame.f_globals name <;>
      simp [hl, hg]

/-- A frame matches exactly when its selected binding exists and is a
truthy callable. -/
theorem frameMatches_iff (frame : FrameData) (name : String) :
    frameMatches frame name = true ↔
      ∃ v, selectedBinding frame name = some v ∧
        v.truthy = true ∧ v.isCallable = true := by
  unfold frameMatches
  cases hsb : selectedBinding frame name with
  | none => simp
  | some v => simp [Bool.and_eq_true]

/-- A frame whose selected binding is not a truthy callable is skipped. -/
theorem search_frame_skip (name : String) (frame : FrameData)
    (rest : List FrameData) (h : frameMatches frame name = false) :
    search_frame name (frame :: rest) = search_frame name rest := by
  rw [search_frame_cons]
  unfold frameMatches at h
  cases hsb : selectedBinding frame name with
  | none => rfl
  | some v =>
    rw [hsb] at h
    have hv : (v.truthy && v.isCallable) = false := h
    simp [hv]

/-- A frame whose selected binding is a truthy callable is returned. -/
theorem search_frame_hit (name : String) (frame : FrameData)
    (rest : List FrameData) (v : Value) (h : selectedBinding frame name = some v)
    (hv : (v.truthy && v.isCallable) = true) :
    search_frame name (frame :: rest) = some (frame, v) := by
  rw [search_frame_cons, h]
  simp [hv]

/-- `search_frame` returns the empty result exactly when no frame of the
chain has a truthy callable selected binding. -/
theorem search_frame_eq_none_iff (name : String) (chain : List FrameData) :
    search_frame name chain = none ↔
      ∀ fr ∈ chain, frameMatches fr name = false := by
  induction chain with
  | nil => simp [search_frame]
  | cons frame rest ih =>
    cases hmb : frameMatches frame name with
    | false =>
      rw [search_frame_skip name frame rest hmb]
      simp [hmb, ih]
    | true =>
      obtain ⟨v, hsb, ht, hc⟩ := (frameMatches_iff frame name).mp hmb
      rw [search_frame_hit name frame rest v hsb (by simp [ht, hc])]
      refine ⟨fun hcontr => by simp at hcontr, fun hall => ?_⟩
      exact absurd (hall frame (List.mem_cons_self frame rest)) (by simp [hmb])

/-- When `search_frame` returns a pair, the value is the truthy callable
selected binding of the returned frame, and every frame nearer than the
returned one fails the match. -/
theorem search_frame_eq_some (name : String) (chain : List FrameData)
    (fr : FrameData) (v : Value)
    (h : search_frame name chain = some (fr, v)) :
    selectedBinding fr name = some v ∧ v.truthy = true ∧ v.isCallable = true ∧
      ∃ pre post, chain = pre ++ fr :: post ∧
        ∀ g ∈ pre, frameMatches g name = false := by
  induction chain with
  | nil => simp [search_frame] at h
  | cons frame rest ih =>
    cases hmb : frameMatches frame name with
    | true =>
      obtain ⟨w, hsb, ht, hc⟩ := (frameMatches_iff frame name).mp hmb
      rw [search_frame_hit name frame rest w hsb (by simp [ht, hc])] at h
      have h1 : frame = fr := congrArg (fun p => p.1) (Option.some.inj h)
      have h2 : w = v := congrArg (fun p => p.2) (Option.some.inj h)
      refine ⟨?_, ?_, ?_, [], rest, ?_, ?_⟩
      · rw [← h1, ← h2]; exact hsb
      · rw [← h2]; exact ht
      · rw [← h2]; exact hc
      · rw [h1]; rfl
      · intro g hg; cases hg
    | false =>
      rw [search_frame_skip name frame rest hmb] at h
      obtain ⟨h1, h2, h3, pre, post, hchain, hpre⟩ := ih h
      refine ⟨h1, h2, h3, frame :: pre, post, by rw [hchain]; rfl, ?_⟩
      intro g hg
      rcases List.mem_cons.mp hg with hg | hg
      · rw [hg]; exact hmb
      · exact hpre g hg

/-- A frame returned by `caller_frame` is never owned. -/
theorem caller_frame_not_owned :
    ∀ (chain : List FrameData) (fr : FrameData),
      caller_frame chain = some fr → our_frame fr = false := by
  intro chain
  induction chain with
  | nil => intro fr h; simp [caller_frame] at h
  | cons frame rest ih =>
    intro fr h
    simp only [caller_frame] at h
    split at h
    · exact ih fr h
    · rename_i ho
      cases h
      simpa using ho

/-- On a chain every frame of which is owned, the walk runs off the end. -/
theorem caller_frame_all_owned :
    ∀ (chain : List FrameData),
      (∀ fr ∈ chain, our_frame fr = true) → caller_frame chain = none := by
  intro chain
  induction chain with
  | nil => intro _; rfl
  | cons frame rest ih =>
    intro h
    have hf : our_frame frame = true := h frame (List.mem_cons_self frame rest)
    simp only [caller_frame, hf, if_true]
    exact ih (fun fr hfr => h fr (List.mem_cons_of_mem frame hfr))

/-- The suffix at which the walk stops is headed by the returned frame. -/
theorem outerFrames_of_caller_frame :
    ∀ (chain : List FrameData) (fr : FrameData),
      caller_frame chain = some fr →
        ∃ rest, outerFrames chain = fr :: rest := by
  intro chain
  induction chain with
  | nil => intro fr h; simp [caller_frame] at h
  | cons frame rest ih =>
    intro fr h
    simp only [caller_frame] at h
    by_cases ho : our_frame frame
    · rw [if_pos ho] at h
      obtain ⟨r, hr⟩ := ih fr h
      refine ⟨r, ?_⟩
      simp only [outerFrames, ho, if_true]
      exact hr
    · rw [if_neg ho] at h
      cases h
      refine ⟨rest, ?_⟩
      have hof : our_frame frame = false := by simpa using ho
      simp [outerFrames, hof]

/-- Looking up the key just written by `insertCache` yields the value. -/
theorem lookupCache_insert_self (c : Cache) (k : String × Nat) (v : Value) :
    lookupCache (insertCache c k v) k = some v := by
  simp [lookupCache, insertCache, List.find?]

/-- After any call of `create_function`, the cache maps the key of the
frame to exactly the returned callable. -/
theorem create_function_caches (cache : Cache) (frame : FrameData) :
    lookupCache (create_function cache frame).cache (cache_key frame) =
      some (create_function cache frame).func := by
  unfold create_function cache_key
  cases h : lookupCache cache (frame.co_name, frame.f_lineno) with
  | some f => simp [h]
  | none =>
    cases hmk : frame.mkFunctionResult <;>
      simp [h, hmk, lookupCache_insert_self]

/-- The traceback scan succeeds exactly when some entry carries an
owned frame. -/
theorem walk_tb_any_ours_iff (tb : List (FrameData × Nat)) :
    walk_tb_any_ours tb = true ↔ ∃ p ∈ tb, our_frame p.1 = true := by
  induction tb with
  | nil => simp [walk_tb_any_ours]
  | cons p rest ih =>
    obtain ⟨frame, lineno⟩ := p
    cases hf : our_frame frame <;>
      simp [walk_tb_any_ours, hf, ih]

/-! Claim theorems, counterexamples and witnesses. -/

/-- C1, counterexample: on a chain consisting of a single owned frame
(the entire chain is owned by the inspecting type), `caller_frame` does
not return the outermost frame, as the claim states; the walk steps past
it onto `None` and an `AttributeError` escapes (modelled: result
`none`). -/
theorem c1_counterexample :
    our_frame ownedFrame = true ∧
      caller_frame [ownedFrame] ≠ some ownedFrame ∧
      caller_frame [ownedFrame] = none := by
  refine ⟨by decide, ?_, by decide⟩
  decide

/-- C1 (amended): for every frame chain, every frame that `caller_frame`
returns satisfies `our_frame fr = false`, i.e. its owner is not an
instance of the inspecting type or a subtype; when every frame in the
chain is so owned, `caller_frame` does not return the outermost frame
(or any frame): the walk falls off the chain and the resulting
`AttributeError` is modelled by `none`. -/
theorem c1_caller_frame_never_owned (chain : List FrameData) :
    (∀ fr, caller_frame chain = some fr → our_frame fr = false) ∧
      ((∀ fr ∈ chain, our_frame fr = true) → caller_frame chain = none) :=
  ⟨fun fr h => caller_frame_not_owned chain fr h,
   fun h => caller_frame_all_owned chain h⟩

/-- C1, witness: instantiating the amended theorem on the concrete chain
`[ownedFrame2, plainFrame]` shows the returned frame is not owned. -/
theorem c1_witness : our_frame plainFrame = false :=
  (c1_caller_frame_never_owned [ownedFrame2, plainFrame]).1 plainFrame (by decide)

/-- C2, counterexample: a chain of two owned frames is exhausted while
still owned; `caller_frame` does not return the outermost frame
`ownedFrame2` — the modelled `AttributeError` (`none`) escapes, so the
call does fail. -/
theorem c2_counterexample :
    our_frame ownedFrame = true ∧ our_frame ownedFrame2 = true ∧
      caller_frame [ownedFrame, ownedFrame2] = none := by
  refine ⟨by decide, by decide, by decide⟩

/-- C2 (amended): for every frame chain in which every frame is owned by
the inspecting type, `caller_frame` does not return the outermost frame;
the loop advances past the outermost frame onto `None`, the ownership
test dereferences `None` and an `AttributeError` escapes (modelled:
the result is `none`, no frame at all). -/
theorem c2_all_owned_fails (chain : List FrameData)
    (h : ∀ fr ∈ chain, our_frame fr = true) :
    caller_frame chain = none :=
  caller_frame_all_owned chain h

/-- C2, witness: the amended theorem applied to the concrete all-owned
chain `[ownedFrame2]`. -/
theorem c2_witness : caller_frame [ownedFrame2] = none :=
  c2_all_owned_fails [ownedFrame2] (by decide)

/-- C3, counterexample: `hiddenFrame` binds the name f to a callable in
both its locals (a falsy callable) and its globals (a truthy callable),
yet `search_frame` returns the empty result, refuting the claim that
`(none, none)` is returned iff no frame in the chain binds the name to a
callable. -/
theorem c3_counterexample :
    bindsNameToCallable hiddenFrame "f" = true ∧
      search_frame "f" [hiddenFrame] = none := by
  refine ⟨by decide, by decide⟩

/-- C3 (amended): `search_frame` walks outward via parent links; at each
frame the selected value is the local binding of the name if present,
else the global binding (locals take precedence); it returns the first
frame whose selected value is both truthy and callable, together with
that value; and it returns `(none, none)` if and only if no frame in the
chain has a truthy callable selected value. -/
theorem c3_search_frame_characterization (name : String)
    (chain : List FrameData) :
    (search_frame name chain = none ↔
      ∀ fr ∈ chain, frameMatches fr name = false) ∧
    (∀ fr v, search_frame name chain = some (fr, v) →
      selectedBinding fr name = some v ∧ v.truthy = true ∧
        v.isCallable = true ∧
        ∃ pre post, chain = pre ++ fr :: post ∧
          ∀ g ∈ pre, frameMatches g name = false) :=
  ⟨search_frame_eq_none_iff name chain,
   fun fr v h => search_frame_eq_some name chain fr v h⟩

/-- C3, witness: on the concrete chain `[extFrame]` the characterization
yields the match at `extFrame` with the truthy callable `goodFn` bound
in its locals. -/
theorem c3_witness :
    selectedBinding extFrame "test" = some goodFn ∧ goodFn.truthy = true ∧
      goodFn.isCallable = true ∧
      ∃ pre post, [extFrame] = pre ++ extFrame :: post ∧
        ∀ g ∈ pre, frameMatches g "test" = false :=
  (c3_search_frame_characterization "test" [extFrame]).2 extFrame goodFn
    (by decide)

/-- C4: `is_internal_error` returns true exactly when the exception kind
is present and at least one traceback entry carries a frame owned by the
inspecting type or a subtype; in particular it returns false for an
absent exception kind. -/
theorem c4_is_internal_error_iff (exc_tp : Option Nat) (exc_value : Nat)
    (tb : List (FrameData × Nat)) :
    is_internal_error exc_tp exc_value tb = true ↔
      exc_tp ≠ none ∧ ∃ p ∈ tb, our_frame p.1 = true := by
  cases exc_tp with
  | none => simp [is_internal_error]
  | some k => simp [is_internal_error, walk_tb_any_ours_iff]

/-- C4, witness: a present exception kind together with a traceback that
passes through an owned frame is classified as internal. -/
theorem c4_witness : is_internal_error (some 0) 0 [(ownedFrame, 3)] = true :=
  (c4_is_internal_error_iff (some 0) 0 [(ownedFrame, 3)]).mpr
    ⟨by simp, (ownedFrame, 3), by simp, by decide⟩

/-- C5: `create_function` is idempotent by cache key: a second call whose
frame shares `(co_name, f_lineno)` with a first call, run on the cache
the first call produced, returns the identical callable. -/
theorem c5_create_function_idempotent (cache : Cache) (fr1 fr2 : FrameData)
    (h : cache_key fr1 = cache_key fr2) :
    (create_function (create_function cache fr1).cache fr2).func =
      (create_function cache fr1).func := by
  have hc : lookupCache (create_function cache fr1).cache (cache_key fr2) =
      some (create_function cache fr1).func := by
    rw [← h]; exact create_function_caches cache fr1
  unfold cache_key at hc
  conv_lhs => rw [create_function]
  rw [hc]

/-- C5, witness: two calls for `extFrame` starting from the empty cache
return the same callable. -/
theorem c5_witness :
    (create_function (create_function [] extFrame).cache extFrame).func =
      (create_function [] extFrame).func :=
  c5_create_function_idempotent [] extFrame extFrame rfl

/-- C6: `create_function` is total (never raises); after any call the
cache maps the key of the frame to the returned callable; on a cache
miss, a structurally impossible construction (`TypeError`) yields the
fixed placeholder `unknown` with no warning, and any other construction
failure yields the same placeholder plus one warning naming the failed
identity and the failure reason. -/
theorem c6_create_function_failure_policy (cache : Cache) (fr : FrameData) :
    lookupCache (create_function cache fr).cache (cache_key fr) =
      some (create_function cache fr).func ∧
    (lookupCache cache (cache_key fr) = none →
      (fr.mkFunctionResult = .typeError →
        (create_function cache fr).func = unknown ∧
          (create_function cache fr).warns = []) ∧
      (∀ tn tx, fr.mkFunctionResult = .otherError tn tx →
        (create_function cache fr).func = unknown ∧
          (create_function cache fr).warns = [warnCreate fr.co_name tn tx])) := by
  refine ⟨create_function_caches cache fr, fun hmiss => ⟨?_, ?_⟩⟩
  · intro hty
    unfold cache_key at hmiss
    simp [create_function, hmiss, hty]
  · intro tn tx hoth
    unfold cache_key at hmiss
    simp [create_function, hmiss, hoth]

/-- C6, witness: for `hiddenFrame` (whose construction oracle raises
`TypeError`) on the empty cache, the placeholder is returned silently. -/
theorem c6_witness :
    (create_function [] hiddenFrame).func = unknown ∧
      (create_function [] hiddenFrame).warns = [] :=
  (((c6_create_function_failure_policy [] hiddenFrame).2 rfl).1) rfl

/-- C7, counterexample: on the chain consisting only of `extFrame` (the
caller frame itself, executing code named test, whose own locals bind
test to the truthy callable `goodFn`), the search performed by
`caller_function` finds the binding at `extFrame` itself and returns it
with no warning; had the search started one level further out than the
frame (here: the empty chain) it would have found nothing and the claim
would require a warning plus the `create_function` fallback. -/
theorem c7_counterexample :
    caller_function [] [extFrame] = some ⟨goodFn, [], []⟩ ∧
      search_func "test" ([] : List FrameData) = none ∧
      startswith_lt "test" = false := by
  refine ⟨by decide, by decide, by decide⟩

/-- C7 (amended): `caller_function` resolves `frame = caller_frame()` and
`name`, the code name of that frame, then performs the name search
starting at `frame` itself (the default start of the search recomputes
`caller_frame()`, which lands on the same frame), not one level further
out; if the search finds a callable it returns it with no warning and an
unchanged cache; if the search fails it emits the not-found warning
unless `name` begins with the reserved marker character <, and falls
back to `create_function(frame)`. -/
theorem c7_caller_function_resolution (cache : Cache)
    (chain : List FrameData) (fr : FrameData)
    (h : caller_frame chain = some fr) :
    (∃ rest, outerFrames chain = fr :: rest) ∧
    (∀ v, search_func fr.co_name (outerFrames chain) = some v →
      caller_function cache chain = some ⟨v, cache, []⟩) ∧
    (search_func fr.co_name (outerFrames chain) = none →
      caller_function cache chain = some
        ⟨(create_function cache fr).func, (create_function cache fr).cache,
          (if startswith_lt fr.co_name then [] else [warnNotFound fr.co_name])
            ++ (create_function cache fr).warns⟩) := by
  refine ⟨outerFrames_of_caller_frame chain fr h, ?_, ?_⟩
  · intro v hv
    have htr : v.truthy = true := by
      unfold search_func at hv
      cases hsf : search_frame fr.co_name (outerFrames chain) with
      | none => rw [hsf] at hv; cases hv
      | some p =>
        rw [hsf] at hv
        obtain ⟨fr', v'⟩ := p
        have hvv : v' = v := Option.some.inj hv
        have := (search_frame_eq_some fr.co_name (outerFrames chain) fr' v'
          hsf).2.1
        rw [← hvv]; exact this
    simp only [caller_function, h, hv, pyTruthyOpt, htr, if_true]
    rfl
  · intro hn
    simp only [caller_function, h, hn, pyTruthyOpt, Bool.false_eq_true,
      if_false]

/-- C7, witness: on the chain `[plainFrame]` the search finds nothing, so
the resolution falls back to `create_function` with the not-found
warning for the name test. -/
theorem c7_witness :
    caller_function [] [plainFrame] = some
      ⟨(create_function [] plainFrame).func,
        (create_function [] plainFrame).cache,
        (if startswith_lt "test" then [] else [warnNotFound "test"])
          ++ (create_function [] plainFrame).warns⟩ :=
  (c7_caller_function_resolution [] [plainFrame] plainFrame rfl).2.2 rfl

/-- C8: a frame whose locals bind the searched name to a value that is
not both truthy and callable is skipped by `search_frame` — in
particular any callable bound to the same name in that frame globals is
hidden, and a falsy callable in the locals is itself skipped: the walk
continues with the parent frame. -/
theorem c8_locals_hide_globals (name : String) (fr : FrameData)
    (rest : List FrameData) (v : Value)
    (hl : lookupDict fr.f_locals name = some v)
    (hv : (v.truthy && v.isCallable) = false) :
    search_frame name (fr :: rest) = search_frame name rest := by
  have hsb : selectedBinding fr name = some v := by
    unfold selectedBinding
    rw [hl]
  apply search_frame_skip
  unfold frameMatches
  rw [hsb]
  exact hv

/-- C8, witness: `hiddenFrame` binds f in its locals to the falsy
callable `falsyCallable` while its globals bind f to the truthy callable
`goodFn`; the frame is skipped and the search continues (here: to the
empty chain). -/
theorem c8_witness :
    search_frame "f" [hiddenFrame] = search_frame "f" [] :=
  c8_locals_hide_globals "f" hiddenFrame [] falsyCallable (by decide)
    (by decide)

/-- C9: once `create_function` has run for a key, a later call with any
frame carrying the same `(co_name, f_lineno)` returns the cached
callable with the cache unchanged and no warning — the result does not
depend on the new frame code object, globals or construction oracle. -/
theorem c9_cache_hit_ignores_frame (cache : Cache) (fr1 fr2 : FrameData)
    (h : cache_key fr2 = cache_key fr1) :
    create_function (create_function cache fr1).cache fr2 =
      ⟨(create_function cache fr1).func, (create_function cache fr1).cache,
        []⟩ := by
  have hc : lookupCache (create_function cache fr1).cache (cache_key fr2) =
      some (create_function cache fr1).func := by
    rw [h]; exact create_function_caches cache fr1
  unfold cache_key at hc
  conv_lhs => rw [create_function]
  rw [hc]

/-- C9, witness: after a first call for `extFrame`, the call for
`extFrameAlt` — same key, different code object, globals and
construction oracle (which would raise) — returns the cached callable
with no warning. -/
theorem c9_witness :
    create_function (create_function [] extFrame).cache extFrameAlt =
      ⟨(create_function [] extFrame).func,
        (create_function [] extFrame).cache, []⟩ :=
  c9_cache_hit_ignores_frame [] extFrame extFrameAlt rfl

/-- C10: the result of `is_internal_error` does not depend on the
exception value argument: for every kind, traceback and any two values,
the results coincide. -/
theorem c10_exc_value_irrelevant (exc_tp : Option Nat) (v1 v2 : Nat)
    (tb : List (FrameData × Nat)) :
    is_internal_error exc_tp v1 tb = is_internal_error exc_tp v2 tb := by
  cases exc_tp <;> rfl

end StackInspector
